import Mathlib

/-!
# Verification of the harassment-manager shared data model and global stylesheet

Shallow embedding of the two source files of the repository fragment:

* `src/common-types.ts` — the shared data-model contracts (request/response
  shapes, the Twitter wire shapes, the `isFirebaseCredential` predicate and
  the `Platform` / `BuildReportStep` enumerations);
* `src/styles.scss` — the global stylesheet, embedded as a list of CSS rules
  (selector lists paired with declaration lists) after SCSS nesting and mixin
  expansion.

Optional TypeScript fields (`field?: T`) are embedded as `Option T` with
`none` standing for `undefined`/absence. TypeScript `number` fields are
embedded as `Int` (none of the verified properties depend on float
behaviour). The JavaScript `Date` object is embedded as a wrapper around its
millisecond timestamp.
-/

/-- JavaScript `Date`, embedded as its millisecond timestamp. -/
structure JsDate where
  millis : Int
deriving Repr, DecidableEq

/-- `AttributeSummaryScores` from `./perspectiveapi-types` (module not part of
this fragment). Modelled from the spec: "score values keyed by
toxicity/attribute name". Scores are embedded as rationals. -/
def AttributeSummaryScores : Type := List (String × Rat)

/-- `SocialMediaItem` (common-types.ts lines 22-35): a normalized social
post. -/
structure SocialMediaItem where
  id_str : String
  text : String
  date : JsDate
  url : Option String := none
  authorName : Option String := none
  authorScreenName : Option String := none
  authorUrl : Option String := none
  authorAvatarUrl : Option String := none
  hasImage : Option Bool := none
  verified : Option Bool := none

/-- `ScoredItem<T>` (common-types.ts lines 37-40). -/
structure ScoredItem (T : Type) where
  item : T
  scores : AttributeSummaryScores

/-- `SelectableItem<T>` (common-types.ts lines 45-48): extends `ScoredItem`
with selection state. -/
structure SelectableItem (T : Type) extends ScoredItem T where
  selected : Bool
  disabled : Option Bool := none

/-- A JavaScript runtime credential value as seen by the
`isFirebaseCredential` predicate: JS objects are open records, so any
credential value may or may not carry a `signInMethod` property (`none`
embeds the property being absent/`undefined`), alongside its other
properties. -/
structure CredentialValue where
  signInMethod : Option String
  otherProps : List (String × String) := []
deriving Repr, DecidableEq

/-- `firebase.auth.OAuthCredential` (external shape): carries a mandatory
`signInMethod` string (inherited from `AuthCredential`) plus provider data. -/
structure OAuthCredential where
  providerId : String
  signInMethod : String
  accessToken : Option String := none
  idToken : Option String := none
  secret : Option String := none
deriving Repr, DecidableEq

/-- `Credentials` from `google-auth-library` (external shape): a service
credential; it declares no `signInMethod` field. -/
structure Credentials where
  refresh_token : Option String := none
  expiry_date : Option Int := none
  access_token : Option String := none
  token_type : Option String := none
  id_token : Option String := none
  scope : Option String := none
deriving Repr, DecidableEq

/-- The runtime value of an `OAuthCredential`: its `signInMethod` property is
present (a defined string). -/
def OAuthCredential.toValue (c : OAuthCredential) : CredentialValue :=
  { signInMethod := some c.signInMethod }

/-- The runtime value of a service `Credentials` object: it has no
`signInMethod` property, so reading that property yields `undefined`;
its own (string-valued) properties are collected as other properties. -/
def Credentials.toValue (c : Credentials) : CredentialValue :=
  { signInMethod := none
    otherProps :=
      (match c.refresh_token with
        | some v => [("refresh_token", v)]
        | none => []) ++
      (match c.access_token with
        | some v => [("access_token", v)]
        | none => []) ++
      (match c.token_type with
        | some v => [("token_type", v)]
        | none => []) ++
      (match c.id_token with
        | some v => [("id_token", v)]
        | none => []) ++
      (match c.scope with
        | some v => [("scope", v)]
        | none => []) }

/-- `isFirebaseCredential` (common-types.ts lines 253-261):
`(credential as firebase.auth.OAuthCredential).signInMethod !== undefined`.
The cast is erased at runtime; the check reads the `signInMethod` property of
the runtime value and compares it against `undefined`. -/
def isFirebaseCredential (credential : CredentialValue) : Bool :=
  credential.signInMethod ≠ none

/-- `CreateSpreadsheetRequest<T>` (common-types.ts lines 50-56). The
`credentials` union member is embedded by its runtime value. -/
structure CreateSpreadsheetRequest (T : Type) where
  entries : List (ScoredItem T)
  credentials : Option CredentialValue := none
  username : String
  reportReasons : List String
  context : String

/-- `CreateSpreadsheetResponse` (common-types.ts lines 58-60). -/
structure CreateSpreadsheetResponse where
  spreadsheetUrl : String

/-- `CreatePdfRequest<T>` (common-types.ts lines 62-70). -/
structure CreatePdfRequest (T : Type) where
  entries : List (ScoredItem T)
  username : Option String := none
  reportReasons : List String
  context : String
  date : Option String := none
  platform : Option String := none

/-- `SafeUrl` from `@angular/platform-browser` (external): a sanitized URL
value, embedded as its underlying string. -/
structure SafeUrl where
  url : String
deriving Repr, DecidableEq

/-- `CreatePdfResponse` (common-types.ts lines 72-76). The optional
`ArrayBuffer` is embedded as an optional byte list. -/
structure CreatePdfResponse where
  title : String
  safeUrl : SafeUrl
  buffer : Option (List UInt8) := none

/-- `firebase.auth.UserCredential` (external shape), modelled minimally: it
may wrap an OAuth credential value and a user identifier. -/
structure UserCredential where
  credential : Option CredentialValue := none
  userUid : Option String := none
deriving Repr, DecidableEq

/-- `GetTweetsRequest` (common-types.ts lines 78-83): optional sign-in
credentials, optional pagination token, mandatory `yyyymmddhhmm` date
bounds. -/
structure GetTweetsRequest where
  credentials : Option UserCredential := none
  nextPageToken : Option String := none
  fromDate : String
  toDate : String

/-- `BlockTwitterUsersRequest` (common-types.ts lines 90-93). -/
structure BlockTwitterUsersRequest where
  credential : OAuthCredential
  users : List String

/-- `BlockTwitterUsersResponse` (common-types.ts lines 95-98): optional
top-level error, optional list of Twitter screen names that failed. -/
structure BlockTwitterUsersResponse where
  error : Option String := none
  failedScreennames : Option (List String) := none
deriving Repr, DecidableEq

/-- `MuteTwitterUsersRequest` (common-types.ts lines 100-103). -/
structure MuteTwitterUsersRequest where
  credential : OAuthCredential
  users : List String

/-- `MuteTwitterUsersResponse` (common-types.ts lines 105-108): optional
top-level error, optional list of Twitter screen names that failed. -/
structure MuteTwitterUsersResponse where
  error : Option String := none
  failedScreennames : Option (List String) := none
deriving Repr, DecidableEq

/-- `HideRepliesTwitterRequest` (common-types.ts lines 110-113). -/
structure HideRepliesTwitterRequest where
  credential : OAuthCredential
  tweetIds : List String

/-- `HideRepliesTwitterResponse` (common-types.ts lines 115-119). -/
structure HideRepliesTwitterResponse where
  error : Option String := none
  numQuotaFailures : Option Int := none
  numOtherFailures : Option Int := none
deriving Repr, DecidableEq

/-- `Indices` (common-types.ts line 197): a 2-element numeric offset pair. -/
def Indices : Type := Int × Int

/-- `Symbols` (common-types.ts lines 199-202). -/
structure Symbols where
  indices : Indices
  text : String

/-- `TweetUserMention` (common-types.ts lines 204-210). -/
structure TweetUserMention where
  id : Option Int := none
  id_str : Option String := none
  indices : Indices
  name : Option String := none
  screen_name : String

/-- `TweetMedia` (common-types.ts lines 212-217). -/
structure TweetMedia where
  id_str : Option String := none
  media_url : String
  type : String
  indices : Indices

/-- `TweetMediaDimensions` (common-types.ts lines 226-230). -/
structure TweetMediaDimensions where
  h : Int
  w : Int
  resize : String

/-- `TweetMediaSizes` (common-types.ts lines 219-224). -/
structure TweetMediaSizes where
  large : TweetMediaDimensions
  medium : TweetMediaDimensions
  small : TweetMediaDimensions
  thumb : TweetMediaDimensions

/-- `TweetUrl` (common-types.ts lines 232-237). -/
structure TweetUrl where
  display_url : Option String := none
  expanded_url : Option String := none
  indices : Indices
  url : String

/-- `TweetHashtag` (common-types.ts lines 239-242). -/
structure TweetHashtag where
  text : String
  indices : Indices

/-- `TweetEntities` (common-types.ts lines 189-195). -/
structure TweetEntities where
  hashtags : Option (List TweetHashtag) := none
  media : Option (List TweetMedia) := none
  symbols : Option (List Symbols) := none
  urls : Option (List TweetUrl) := none
  user_mentions : Option (List TweetUserMention) := none

/-- `ExtendedTweet` (common-types.ts lines 245-249): for tweets above 140
characters. -/
structure ExtendedTweet where
  full_text : String
  display_text_range : List Int
  entities : TweetEntities

/-- `TwitterUser` (common-types.ts lines 172-187). -/
structure TwitterUser where
  id_str : String
  screen_name : String
  created_at : Option String := none
  description : Option String := none
  favorite_count : Option Int := none
  followers_count : Option Int := none
  friends_count : Option Int := none
  id : Option Int := none
  name : Option String := none
  profile_image_url : Option String := none
  statuses_count : Option Int := none
  verified : Option Bool := none

/-- `TweetObject` (common-types.ts lines 144-170): the raw platform tweet
shape. It is recursive through the optional `retweeted_status` field, so it
is embedded as an inductive type with one constructor whose arguments are the
fields in declaration order. -/
inductive TweetObject where
  | mk
    (created_at : Option String)
    (id_str : String)
    (text : String)
    (user : Option TwitterUser)
    (entities : Option TweetEntities)
    (display_text_range : Option (List Int))
    (truncated : Option Bool)
    (extended_tweet : Option ExtendedTweet)
    (extended_entities : Option TweetEntities)
    (favorite_count : Option Int)
    (favorited : Option Bool)
    (in_reply_to_status_id : Option String)
    (lang : Option String)
    (reply_count : Option Int)
    (retweet_count : Option Int)
    (retweeted_status : Option TweetObject)
    (source : Option String)

/-- The `id_str` field of a `TweetObject`. -/
def TweetObject.id_str : TweetObject → String
  | .mk _ i _ _ _ _ _ _ _ _ _ _ _ _ _ _ _ => i

/-- The `text` field of a `TweetObject`. -/
def TweetObject.text : TweetObject → String
  | .mk _ _ t _ _ _ _ _ _ _ _ _ _ _ _ _ _ => t

/-- The `truncated` field of a `TweetObject`. -/
def TweetObject.truncated : TweetObject → Option Bool
  | .mk _ _ _ _ _ _ tr _ _ _ _ _ _ _ _ _ _ => tr

/-- The `extended_tweet` field of a `TweetObject`. -/
def TweetObject.extended_tweet : TweetObject → Option ExtendedTweet
  | .mk _ _ _ _ _ _ _ ex _ _ _ _ _ _ _ _ _ => ex

/-- `TwitterApiRequestParams` (common-types.ts lines 127-131). -/
structure TwitterApiRequestParams where
  fromDate : String
  toDate : String
  maxResults : Int

/-- `TwitterApiResponse` (common-types.ts lines 121-125): the raw paging
envelope from the upstream search API. -/
structure TwitterApiResponse where
  next : String
  requestParameters : TwitterApiRequestParams
  results : List TweetObject

/-- `Tweet = TweetObject & SocialMediaItem` (common-types.ts line 251): a
single value satisfying both shapes; the shared `id_str`/`text` fields live
in the `TweetObject` part, and the remaining `SocialMediaItem` fields are
added alongside. -/
structure Tweet where
  toTweetObject : TweetObject
  date : JsDate
  url : Option String := none
  authorName : Option String := none
  authorScreenName : Option String := none
  authorUrl : Option String := none
  authorAvatarUrl : Option String := none
  hasImage : Option Bool := none
  verified : Option Bool := none

/-- `GetTweetsResponse` (common-types.ts lines 85-88): a list of Tweets and
an optional continuation token. -/
structure GetTweetsResponse where
  tweets : List Tweet
  nextPageToken : Option String := none

/-- `CsvFileTemplate` (common-types.ts lines 263-267): a title, an ordered
header row, and an ordered list of body rows. -/
structure CsvFileTemplate where
  title : String
  header : List String
  bodyRows : List (List String)
deriving Repr, DecidableEq

/-- `Platform` (common-types.ts lines 269-271): a string enumeration with
the single member `TWITTER = "twitter"`. -/
inductive Platform where
  | TWITTER
deriving Repr, DecidableEq

/-- The string value of a `Platform` member. -/
def Platform.value : Platform → String
  | .TWITTER => "twitter"

/-- `BuildReportStep` (common-types.ts lines 273-279): a numeric enumeration
with members in declaration order `NONE`, `ADD_COMMENTS`, `EDIT_DETAILS`,
`TAKE_ACTION`, `COMPLETE`. -/
inductive BuildReportStep where
  | NONE
  | ADD_COMMENTS
  | EDIT_DETAILS
  | TAKE_ACTION
  | COMPLETE
deriving Repr, DecidableEq

/-- The ordinal (auto-assigned numeric value) of a `BuildReportStep` member:
TypeScript numbers unannotated enum members 0, 1, 2, ... in declaration
order. -/
def BuildReportStep.ordinal : BuildReportStep → Nat
  | .NONE => 0
  | .ADD_COMMENTS => 1
  | .EDIT_DETAILS => 2
  | .TAKE_ACTION => 3
  | .COMPLETE => 4

/-- The members of `BuildReportStep` in source declaration order
(common-types.ts lines 274-278). -/
def buildReportStepDeclOrder : List BuildReportStep :=
  [.NONE, .ADD_COMMENTS, .EDIT_DETAILS, .TAKE_ACTION, .COMPLETE]

/-- `ClearReportRequest` (common-types.ts lines 281-285). -/
structure ClearReportRequest where
  documentId : String
  idToken : String
  platform : Platform

/-- A single CSS declaration of the stylesheet: property name, value text,
and whether the declaration carries the `!important` marker. -/
structure CssDecl where
  property : String
  value : String
  important : Bool
deriving Repr, DecidableEq

/-- A plain CSS declaration (no `!important`). -/
def CssDecl.plain (p v : String) : CssDecl := ⟨p, v, false⟩

/-- A CSS declaration carrying the `!important` marker. -/
def CssDecl.imp (p v : String) : CssDecl := ⟨p, v, true⟩

/-- A CSS rule: a selector list and its declaration block. -/
structure CssRule where
  selectors : List String
  decls : List CssDecl
deriving Repr, DecidableEq

/-- The author-written rules of `src/styles.scss` (lines 53-482) in source
order, after SCSS nesting and mixin expansion (`max-slide-toggle-theme` is
expanded at both of its inclusion sites). The vendored library styles pulled
in by `@import`/`@include` are external dependencies, not declarations of
this stylesheet. -/
def stylesheet : List CssRule := [
  ⟨["*"],
   [.plain "font-family" "\x27Google Sans\x27, Arial, sans-serif"]⟩,
  ⟨["div", "h1", "h2", "h3", "p"],
   [.plain "font-weight" "400"]⟩,
  ⟨["body"],
   [.plain "height" "100vh",
    .plain "margin" "0px"]⟩,
  ⟨[".mat-list-base .comment-card .mat-list-option.list-item-container .mat-list-item-content-reverse .mat-list-text"],
   [.plain "align-self" "flex-start"]⟩,
  ⟨[".action-warning-dialog-container .mat-dialog-container",
    ".api-error-dialog-container .mat-dialog-container"],
   [.plain "border-radius" "20px",
    .plain "padding-left" "32px",
    .plain "padding-right" "26px",
    .plain "padding-top" "28px"]⟩,
  ⟨[".exit-dialog-container .mat-dialog-container"],
   [.plain "background" "none",
    .plain "box-shadow" "none",
    .plain "padding" "0px"]⟩,
  ⟨[".loading-dialog-container .mat-dialog-container"],
   [.plain "border-radius" "8px"]⟩,
  ⟨[".clear-report-dialog-container .mat-dialog-container"],
   [.plain "border-radius" "20px",
    .plain "width" "633px"]⟩,
  ⟨[".comment-card .mat-list-option.list-item-container .mat-pseudo-checkbox"],
   [.plain "align-self" "flex-start"]⟩,
  ⟨["app-help-center .mat-form-field-appearance-outline .mat-form-field-outline-start"],
   [.plain "border-radius" "30px 0 0 30px",
    .plain "min-width" "40px"]⟩,
  ⟨["app-help-center .mat-form-field-appearance-outline .mat-form-field-outline"],
   [.plain "background-color" "#ffffff",
    .plain "border-radius" "30px"]⟩,
  ⟨["app-help-center .mat-form-field-appearance-outline .mat-form-field-outline-end"],
   [.plain "border-radius" "0 30px 30px 0"]⟩,
  ⟨["app-help-center .mat-form-field-flex"],
   [.plain "align-items" "center"]⟩,
  ⟨["app-help-center .mat-form-field-appearance-outline .mat-form-field-infix"],
   [.plain "padding-top" "0.5em"]⟩,
  ⟨["app-help-center .mat-form-field-appearance-outline .mat-form-field-prefix",
    "app-help-center .mat-form-field-appearance-outline .mat-form-field-suffix"],
   [.plain "top" "0.1em"]⟩,
  ⟨["app-help-center .mat-expansion-panel-header",
    "app-help-center .mat-expansion-panel-body"],
   [.plain "padding-left" "32px",
    .plain "padding-right" "32px"]⟩,
  ⟨["app-filter-dropdown .mat-form-field-appearance-outline .mat-form-field-outline-start",
    "app-search-box .mat-form-field-appearance-outline .mat-form-field-outline-start"],
   [.plain "border-radius" "20px 0 0 20px",
    .plain "min-width" "40px"]⟩,
  ⟨["app-filter-dropdown .mat-form-field-appearance-outline .mat-form-field-outline-end",
    "app-search-box .mat-form-field-appearance-outline .mat-form-field-outline-end"],
   [.plain "border-radius" "0 20px 20px 0"]⟩,
  ⟨["app-filter-dropdown .mat-form-field",
    "app-search-box .mat-form-field"],
   [.plain "min-height" "4em"]⟩,
  ⟨["app-filter-dropdown .mat-form-field-appearance-outline .mat-form-field-outline",
    "app-search-box .mat-form-field-appearance-outline .mat-form-field-outline"],
   [.plain "bottom" "0.4em",
    .plain "top" "1em"]⟩,
  ⟨["app-filter-dropdown .filter-active.mat-form-field-appearance-outline .mat-form-field-outline"],
   [.plain "background-color" "rgba(209, 179, 195, 0.2)",
    .plain "border-radius" "20px"]⟩,
  ⟨["app-filter-dropdown .mat-form-field-appearance-outline .mat-select-arrow-wrapper"],
   [.plain "transform" "none"]⟩,
  ⟨["app-filter-dropdown .mat-select-trigger"],
   [.plain "padding-left" "8px"]⟩,
  ⟨["app-filter-dropdown .mat-option .mat-icon"],
   [.plain "margin-right" "0px"]⟩,
  ⟨[".mat-primary .mat-option.mat-selected:not(.mat-option-disabled).black-on-select"],
   [.plain "color" "black"]⟩,
  ⟨["app-report-pdf"],
   [.plain "font-family" "\x27Roboto\x27, sans-serif"]⟩,
  ⟨["app-report-pdf *"],
   [.plain "font-family" "inherit"]⟩,
  ⟨[".chip-option .mat-option-text"],
   [.plain "padding-left" "8px"]⟩,
  ⟨[".custom-option-multi-select"],
   [.plain "border-top" "1px solid rgba(0, 0, 0, 0.5)"]⟩,
  ⟨[".custom-option-multi-select .mat-option-text"],
   [.plain "padding-left" "0px"]⟩,
  ⟨[".custom-option-multi-select .mat-option-text mat-icon"],
   [.plain "font-size" "20px",
    .plain "height" "20px",
    .plain "margin-right" "8px",
    .plain "width" "20px"]⟩,
  ⟨[".custom-option-multi-select .mat-pseudo-checkbox"],
   [.plain "display" "none"]⟩,
  ⟨["app-search-box .mat-chip-list-wrapper .mat-standard-chip"],
   [.plain "margin-bottom" "1px",
    .plain "margin-left" "4px",
    .plain "margin-right" "4px",
    .plain "margin-top" "1px"]⟩,
  ⟨["app-search-box .mat-form-field-appearance-outline .mat-form-field-flex"],
   [.plain "align-items" "center"]⟩,
  ⟨[".filters-container .mat-form-field-infix"],
   [.plain "border-top" "0.65em solid transparent"]⟩,
  ⟨["app-create-report .options-dropdown .mat-form-field-appearance-legacy .mat-form-field-underline"],
   [.plain "display" "none"]⟩,
  ⟨["h2"],
   [.plain "font-size" "24px"]⟩,
  ⟨["button.action-button", "button.action-button-stroked"],
   [.plain "border-radius" "18px",
    .plain "text-transform" "capitalize"]⟩,
  ⟨["button.action-button"],
   [.plain "background-color" "#b23c66",
    .plain "color" "#ffffff"]⟩,
  ⟨["button.action-button-stroked"],
   [.plain "background-color" "transparent",
    .plain "border" "1px solid #a54167",
    .plain "color" "#a54167"]⟩,
  ⟨["app-review-report .additional-notes textarea.mat-input-element"],
   [.plain "height" "235px"]⟩,
  ⟨["app-review-report .mat-form-field-appearance-outline .mat-form-field-outline"],
   [.plain "background-color" "#fff",
    .plain "border-radius" "5px",
    .plain "color" "rgba(0, 0, 0, 0.54)"]⟩,
  ⟨["app-create-report mat-paginator .mat-paginator-range-label"],
   [.plain "margin" "0"]⟩,
  ⟨["app-create-report .loading mat-paginator .mat-paginator-range-label"],
   [.plain "visibility" "hidden"]⟩,
  ⟨["app-toxicity-range-filter .noUi-connects"],
   [.plain "background" "linear-gradient(to right, #34a85340 0%, #fbbc0440 50%, #e9423540 100%)"]⟩,
  ⟨["app-toxicity-range-filter .noUi-connect"],
   [.plain "background" "linear-gradient(to right, #4d9966 0%, #9da1a3 50%, #e37400 100%)",
    .plain "clip-path" "inset(0% calc(100% - var(--max-score)) 0% var(--min-score))",
    .imp "transform" "none"]⟩,
  ⟨["app-toxicity-range-filter .noUi-horizontal .noUi-handle"],
   [.plain "border-radius" "10px",
    .plain "height" "20px",
    .plain "top" "-8px",
    .plain "width" "20px"]⟩,
  ⟨["app-toxicity-range-filter .noUi-handle:before", ".noUi-handle:after"],
   [.plain "display" "none"]⟩,
  ⟨["app-toxicity-range-selector-dialog .mat-form-field-infix",
    "app-toxicity-range-selector-dialog .mat-form-field-suffix"],
   [.plain "font-weight" "500"]⟩,
  ⟨["app-welcome-page .mat-expansion-panel-content"],
   [.plain "font-size" "18px"]⟩,
  ⟨[".toxicity-tooltip", ".unscored-tooltip", ".actions-tooltip"],
   [.plain "background-color" "#b23c66",
    .plain "color" "#fff",
    .plain "font-size" "14px",
    .plain "line-height" "22px",
    .imp "padding" "16px"]⟩,
  ⟨[".onboarding-backdrop"],
   [.plain "background-color" "rgba(0, 0, 0, 0.6)"]⟩,
  ⟨[".onboarding-view-settings"],
   [.plain "height" "202px"]⟩,
  ⟨[".onboarding-filters"],
   [.plain "height" "190px"]⟩,
  ⟨[".onboarding-pagination"],
   [.plain "height" "165px"]⟩,
  ⟨[".onboarding-recommended-reports"],
   [.plain "height" "193px"]⟩,
  ⟨[".onboarding-comment-card"],
   [.plain "height" "165px"]⟩,
  ⟨[".onboarding-review-report"],
   [.plain "height" "188px"]⟩,
  ⟨[".exit-dialog", ".onboarding-recommended-reports", ".onboarding-view-settings",
    ".onboarding-filters", ".onboarding-pagination", ".onboarding-comment-card",
    ".onboarding-review-report"],
   [.plain "background" "#b23c66",
    .plain "box-shadow" "0px 2px 2px rgba(0, 0, 0, 0.24), 0px 0px 2px rgba(0, 0, 0, 0.12)",
    .plain "color" "#ffffff",
    .plain "font-size" "14px",
    .plain "line-height" "22px",
    .plain "width" "376px"]⟩,
  ⟨[".exit-dialog .message", ".onboarding-recommended-reports .message",
    ".onboarding-view-settings .message", ".onboarding-filters .message",
    ".onboarding-pagination .message", ".onboarding-comment-card .message",
    ".onboarding-review-report .message"],
   [.plain "padding-left" "22px",
    .plain "padding-right" "24px"]⟩,
  ⟨[".exit-dialog button", ".onboarding-recommended-reports button",
    ".onboarding-view-settings button", ".onboarding-filters button",
    ".onboarding-pagination button", ".onboarding-comment-card button",
    ".onboarding-review-report button"],
   [.plain "background-color" "#ffffff",
    .plain "border-radius" "18px",
    .plain "height" "36px",
    .plain "margin-left" "22px",
    .plain "margin-top" "8px",
    .plain "text-transform" "uppercase",
    .plain "width" "110px"]⟩,
  ⟨[".exit-dialog h1", ".onboarding-recommended-reports h1",
    ".onboarding-view-settings h1", ".onboarding-filters h1",
    ".onboarding-pagination h1", ".onboarding-comment-card h1",
    ".onboarding-review-report h1"],
   [.plain "font-size" "24px",
    .plain "line-height" "28px",
    .plain "padding-left" "22px",
    .plain "padding-right" "24px",
    .plain "margin-bottom" "8px",
    .plain "margin-top" "18px"]⟩,
  ⟨[".mat-slide-toggle .mat-slide-toggle-bar"],
   [.plain "background-color" "transparent",
    .plain "border" "1px solid #606266"]⟩,
  ⟨[".mat-slide-toggle .mat-slide-toggle-thumb-container"],
   [.plain "left" "-1px"]⟩,
  ⟨[".mat-slide-toggle .mat-slide-toggle-thumb"],
   [.plain "background-color" "#606266"]⟩,
  ⟨[".mat-slide-toggle.mat-checked .mat-slide-toggle-bar"],
   [.plain "background-color" "transparent",
    .plain "border" "1px solid #a54167"]⟩,
  ⟨[".mat-slide-toggle.mat-checked .mat-slide-toggle-thumb-container"],
   [.plain "left" "1px"]⟩,
  ⟨[".mat-slide-toggle.mat-checked .mat-slide-toggle-thumb"],
   [.plain "background-color" "#a54167"]⟩,
  ⟨[".mat-slide-toggle.mat-checked .mat-slide-toggle-thumb::after"],
   [.plain "background" "url(\x27assets/checkmark.svg\x27) no-repeat 0 0",
    .plain "content" "\x27 \x27",
    .plain "height" "18px",
    .plain "width" "18px",
    .plain "position" "absolute",
    .plain "left" "1px",
    .plain "top" "1px"]⟩,
  ⟨[".dropdown-backdrop"],
   [.plain "background-color" "transparent"]⟩,
  ⟨[".visually-hidden"],
   [.plain "clip" "rect(0 0 0 0)",
    .plain "clip-path" "inset(50%)",
    .plain "height" "1px",
    .plain "overflow" "hidden",
    .plain "position" "absolute",
    .plain "white-space" "nowrap",
    .plain "width" "1px"]⟩]

/-- Every declaration of the stylesheet, paired with the selector list of the
rule it belongs to, in source order. -/
def stylesheetEntries : List (List String × CssDecl) :=
  stylesheet.flatMap (fun r => r.decls.map (fun d => (r.selectors, d)))

/-- The stylesheet entries whose declaration carries the `!important`
marker. -/
def importantEntries : List (List String × CssDecl) :=
  stylesheetEntries.filter (fun e => e.2.important)

/-- The `height` declarations a selector receives from the stylesheet, in
source order. -/
def heightsOf (sel : String) : List String :=
  stylesheetEntries.filterMap (fun e =>
    if sel ∈ e.1 ∧ e.2.property = "height" then some e.2.value else none)

/-- A CSS length expression of the kind appearing in the connector clip
inset: a percentage literal, a custom-property reference `var(--name)`, or a
`calc` subtraction. -/
inductive CssExpr where
  | pct (value : Rat)
  | cssVar (name : String)
  | calcSub (a b : CssExpr)
deriving Repr, DecidableEq

/-- Evaluate a CSS length expression to a percentage number under an
assignment of the custom properties. -/
def CssExpr.eval (env : String → Rat) : CssExpr → Rat
  | .pct v => v
  | .cssVar n => env n
  | .calcSub a b => a.eval env - b.eval env

/-- The structured form of the clip-path inset components (top, right,
bottom, left) declared on `app-toxicity-range-filter .noUi-connect`
(styles.scss line 326):
`inset(0% calc(100% - var(--max-score)) 0% var(--min-score))`. -/
def noUiConnectClipInset : List CssExpr :=
  [.pct 0, .calcSub (.pct 100) (.cssVar "--max-score"), .pct 0,
   .cssVar "--min-score"]

/-- An assignment of the two external score custom properties, each a
percentage number. -/
def scoreEnv (minScore maxScore : Rat) : String → Rat := fun n =>
  if n = "--min-score" then minScore
  else if n = "--max-score" then maxScore
  else 0

/-- Modelled from the spec: the `CsvFileTemplate` well-formedness invariant
("every body row has the same length as the header row"); the fragment
declares the shape only, so the check itself is not in the included source. -/
def CsvFileTemplate.wellFormed (t : CsvFileTemplate) : Bool :=
  t.bodyRows.all (fun r => r.length = t.header.length)

/-- A valid template: a 2-column header with three body rows of matching
length. -/
def csvTemplateValid : CsvFileTemplate :=
  { title := "report"
    header := ["comment", "score"]
    bodyRows := [["a", "0.1"], ["b", "0.9"], ["c", "0.5"]] }

/-- An invalid template: the same header with a body row of mismatched
length. -/
def csvTemplateInvalid : CsvFileTemplate :=
  { title := "report"
    header := ["comment", "score"]
    bodyRows := [["a", "0.1"], ["b"], ["c", "0.5"]] }

/-- Modelled from the spec: "absent token signals no further pages" — the
consumer's final-page test on a `GetTweetsResponse`; the consumer code is not
part of this fragment. -/
def GetTweetsResponse.isFinalPage (r : GetTweetsResponse) : Bool :=
  r.nextPageToken = none

/-- Modelled from the spec: forming the follow-up `GetTweetsRequest` from the
previous request and a received continuation token, holding the mandatory
`fromDate`/`toDate` range fixed; the consumer code is not part of this
fragment. -/
def GetTweetsRequest.followUp (req : GetTweetsRequest) (token : String) :
    GetTweetsRequest :=
  { req with nextPageToken := some token }

/-- The three outcomes of a batch block/mute action. Modelled from the spec:
full success, partial success ("succeeded for most, failed for a few"), and
total failure. -/
inductive BatchOutcome where
  | fullSuccess
  | partialSuccess
  | totalFailure
deriving Repr, DecidableEq

/-- Modelled from the spec: reading the outcome of a block/mute response — a
set top-level error string means total failure; otherwise a non-empty
failed-screen-names list means partial success; otherwise (empty or absent
list) full success. The consumer code is not part of this fragment. -/
def classifyBatchOutcome (error : Option String)
    (failedScreennames : Option (List String)) : BatchOutcome :=
  match error, failedScreennames with
  | some _, _ => .totalFailure
  | none, some (_ :: _) => .partialSuccess
  | none, _ => .fullSuccess

/-- The outcome a `BlockTwitterUsersResponse` reports. -/
def BlockTwitterUsersResponse.outcome (r : BlockTwitterUsersResponse) :
    BatchOutcome :=
  classifyBatchOutcome r.error r.failedScreennames

/-- The outcome a `MuteTwitterUsersResponse` reports. -/
def MuteTwitterUsersResponse.outcome (r : MuteTwitterUsersResponse) :
    BatchOutcome :=
  classifyBatchOutcome r.error r.failedScreennames

/-- C1: the credential-classification predicate `isFirebaseCredential`
returns true exactly when the input's `signInMethod` field is present and not
undefined; every OAuth-shaped credential value yields true and every
service-credential value yields false. -/
theorem C1_isFirebaseCredential_discriminates :
    (∀ c : CredentialValue,
      isFirebaseCredential c = true ↔ c.signInMethod ≠ none) ∧
    (∀ o : OAuthCredential, isFirebaseCredential o.toValue = true) ∧
    (∀ s : Credentials, isFirebaseCredential s.toValue = false) := by
  refine ⟨fun c => ?_, fun o => ?_, fun s => ?_⟩
  · simp [isFirebaseCredential]
  · simp [isFirebaseCredential, OAuthCredential.toValue]
  · simp [isFirebaseCredential, Credentials.toValue]

/-- C2 counterexample: the stylesheet carries the `!important` marker on two
declarations — the range-slider connector's `transform: none` and the tooltip
padding — so the marker is not used exactly once. -/
theorem C2_counterexample_important_not_unique :
    importantEntries =
      [(["app-toxicity-range-filter .noUi-connect"],
        CssDecl.imp "transform" "none"),
       ([".toxicity-tooltip", ".unscored-tooltip", ".actions-tooltip"],
        CssDecl.imp "padding" "16px")] ∧
    importantEntries.length ≠ 1 := by
  refine ⟨rfl, ?_⟩
  decide

/-- C2 amended: the `!important` marker is used exactly twice in the
stylesheet — on the range-slider connector's `transform: none` declaration
and on the tooltip padding declaration (the 16px padding of the
toxicity/unscored/actions tooltip classes); no other declaration carries
it. -/
theorem C2_important_marker_exactly_twice :
    importantEntries.length = 2 ∧
    importantEntries =
      [(["app-toxicity-range-filter .noUi-connect"],
        CssDecl.imp "transform" "none"),
       ([".toxicity-tooltip", ".unscored-tooltip", ".actions-tooltip"],
        CssDecl.imp "padding" "16px")] :=
  ⟨rfl, rfl⟩

/-- C3: a CsvFileTemplate is well-formed iff every body row's length equals
the header row's length, and the check distinguishes a template whose rows
all match a 2-column header from one containing a mismatched row. -/
theorem C3_csvFileTemplate_wellFormed_iff :
    (∀ t : CsvFileTemplate,
      t.wellFormed = true ↔ ∀ r ∈ t.bodyRows, r.length = t.header.length) ∧
    csvTemplateValid.wellFormed = true ∧
    csvTemplateInvalid.wellFormed = false := by
  refine ⟨fun t => ?_, by decide, by decide⟩
  simp [CsvFileTemplate.wellFormed, List.all_eq_true]

/-- C4: the five BuildReportStep members carry ordinals 0..4 in declaration
order NONE, ADD_COMMENTS, EDIT_DETAILS, TAKE_ACTION, COMPLETE, so for every
pair the earlier-declared member's ordinal is strictly below the later
one's. -/
theorem C4_buildReportStep_ordinal_order :
    buildReportStepDeclOrder.Pairwise
      (fun a b => a.ordinal < b.ordinal) ∧
    buildReportStepDeclOrder.map BuildReportStep.ordinal = [0, 1, 2, 3, 4] := by
  refine ⟨?_, rfl⟩
  decide

/-- C5: the clip inset declared on the range-slider active connector
(`inset(0% calc(100% - var(--max-score)) 0% var(--min-score))`) evaluates,
for every pair of external score variables, to 0% top and bottom,
(100% − max-score) right and min-score left; at min-score 20 and max-score 80
it is inset(0% 20% 0% 20%). -/
theorem C5_noUiConnect_clip_inset :
    (["app-toxicity-range-filter .noUi-connect"],
      CssDecl.plain "clip-path"
        "inset(0% calc(100% - var(--max-score)) 0% var(--min-score))")
      ∈ stylesheetEntries ∧
    (∀ minScore maxScore : Rat,
      noUiConnectClipInset.map (CssExpr.eval (scoreEnv minScore maxScore)) =
        [0, 100 - maxScore, 0, minScore]) ∧
    noUiConnectClipInset.map (CssExpr.eval (scoreEnv 20 80)) =
      [0, 20, 0, 20] := by
  refine ⟨by decide, fun minScore maxScore => ?_,
    by simp [noUiConnectClipInset, CssExpr.eval, scoreEnv]; norm_num⟩
  simp [noUiConnectClipInset, CssExpr.eval, scoreEnv]

/-- C6: the credential-classification predicate is total over credential
values: on every input it evaluates to one of the two booleans (the embedding
is a pure total function, so no input can make it throw or diverge). -/
theorem C6_isFirebaseCredential_total :
    ∀ c : CredentialValue,
      isFirebaseCredential c = true ∨ isFirebaseCredential c = false := by
  intro c
  cases h : isFirebaseCredential c
  · exact Or.inr rfl
  · exact Or.inl rfl

/-- C7: the tweet-fetch pagination contract — a GetTweetsResponse is the
final page exactly when its continuation token is absent, and from any
request and received token the follow-up request carries that token as
nextPageToken while keeping the mandatory fromDate and toDate unchanged. -/
theorem C7_getTweets_pagination :
    (∀ r : GetTweetsResponse,
      r.isFinalPage = true ↔ r.nextPageToken = none) ∧
    (∀ (req : GetTweetsRequest) (token : String),
      (req.followUp token).nextPageToken = some token ∧
      (req.followUp token).fromDate = req.fromDate ∧
      (req.followUp token).toDate = req.toDate) := by
  refine ⟨fun r => ?_, fun req token => ⟨rfl, rfl, rfl⟩⟩
  simp [GetTweetsResponse.isFinalPage]

/-- C8: the block-users and mute-users response shapes represent and mutually
distinguish exactly three outcomes — total failure exactly when the top-level
error is set, partial success exactly when there is no error and the
failed-screen-names list is present and non-empty, full success exactly when
there is no error and the list is empty or absent — and each outcome is
realized by a concrete response of either shape. -/
theorem C8_batch_action_outcomes :
    (∀ (e : Option String) (f : Option (List String)),
      (classifyBatchOutcome e f = .totalFailure ↔ e ≠ none) ∧
      (classifyBatchOutcome e f = .partialSuccess ↔
        e = none ∧ ∃ l, f = some l ∧ l ≠ []) ∧
      (classifyBatchOutcome e f = .fullSuccess ↔
        e = none ∧ (f = none ∨ f = some []))) ∧
    BlockTwitterUsersResponse.outcome {} = .fullSuccess ∧
    BlockTwitterUsersResponse.outcome { failedScreennames := some ["a"] } =
      .partialSuccess ∧
    BlockTwitterUsersResponse.outcome { error := some "rate limited" } =
      .totalFailure ∧
    MuteTwitterUsersResponse.outcome {} = .fullSuccess ∧
    MuteTwitterUsersResponse.outcome { failedScreennames := some ["a"] } =
      .partialSuccess ∧
    MuteTwitterUsersResponse.outcome { error := some "rate limited" } =
      .totalFailure := by
  refine ⟨fun e f => ?_, rfl, rfl, rfl, rfl, rfl, rfl⟩
  rcases e with _ | e
  · rcases f with _ | (_ | ⟨u, l⟩)
    · simp [classifyBatchOutcome]
    · simp [classifyBatchOutcome]
    · simp [classifyBatchOutcome]
  · simp [classifyBatchOutcome]

/-- C9: the six onboarding overlay cards receive exactly their literal height
declarations from the stylesheet: view-settings 202px, filters 190px,
pagination 165px, recommended-reports 193px, comment-card 165px,
review-report 188px. -/
theorem C9_onboarding_overlay_heights :
    heightsOf ".onboarding-view-settings" = ["202px"] ∧
    heightsOf ".onboarding-filters" = ["190px"] ∧
    heightsOf ".onboarding-pagination" = ["165px"] ∧
    heightsOf ".onboarding-recommended-reports" = ["193px"] ∧
    heightsOf ".onboarding-comment-card" = ["165px"] ∧
    heightsOf ".onboarding-review-report" = ["188px"] :=
  ⟨rfl, rfl, rfl, rfl, rfl, rfl⟩

/-- C10: the predicate's result depends only on the signInMethod field — two
inputs whose signInMethod fields are both absent or both present classify
alike, and any input with a present signInMethod is classified OAuth-style
regardless of its other properties (so a service credential carrying such a
field would be classified OAuth-style). -/
theorem C10_isFirebaseCredential_field_dependence :
    (∀ c₁ c₂ : CredentialValue,
      c₁.signInMethod.isSome = c₂.signInMethod.isSome →
      isFirebaseCredential c₁ = isFirebaseCredential c₂) ∧
    (∀ (m : String) (props : List (String × String)),
      isFirebaseCredential ⟨some m, props⟩ = true) := by
  constructor
  · rintro ⟨s₁, p₁⟩ ⟨s₂, p₂⟩ h
    cases s₁ <;> cases s₂ <;> simp_all [isFirebaseCredential]
  · intro m props
    simp [isFirebaseCredential]

/-- C10 witness: two concrete inputs whose signInMethod fields are both
present but whose other properties differ classify alike, and a
service-credential-like property bag that carries a signInMethod classifies
as OAuth-style. -/
theorem C10_witness_concrete :
    isFirebaseCredential ⟨some "google.com", []⟩ =
      isFirebaseCredential ⟨some "twitter.com", [("refresh_token", "tok")]⟩ ∧
    isFirebaseCredential ⟨some "google.com", [("refresh_token", "tok")]⟩ =
      true :=
  ⟨C10_isFirebaseCredential_field_dependence.1 _ _ rfl,
   C10_isFirebaseCredential_field_dependence.2 "google.com"
     [("refresh_token", "tok")]⟩
